import Mathlib

/-!
Verification development for the tracer session manager in
`src/src-tauri/src/lib.rs`. The stateful step command `get_tracer_data`
(lines 150-296), the tracer spawner `Tracer::spawn` (lines 96-128) and the
stateless signature query `get_function_signature` (lines 301-330) are
embedded shallowly: interactions with the operating system and the external
child process (spawn outcomes, pipe write results, `try_wait` liveness
checks, the blocking `read_line`, and the external JSON parser) are supplied
by an explicit environment record, and every process interaction performed
by one invocation is recorded in an action trace in program order.
-/

namespace Flowlens

/-- Shallow model of `serde_json::Value`, the structured JSON events exchanged
with the external tracing process. The session manager treats these values as
opaque; only the external parser (modelled as an environment function)
produces them. Floating point numbers are out of scope, so numbers are `Int`. -/
inductive JsonValue where
  | null : JsonValue
  | bool (b : Bool) : JsonValue
  | num (n : Int) : JsonValue
  | str (s : String) : JsonValue
  | arr (elems : List JsonValue) : JsonValue
  | obj (fields : List (String × JsonValue)) : JsonValue

/-- Mirror of `TraceRequest` (lib.rs lines 139-144). `stop_line` is an `i32`
in the source; the command performs no arithmetic on it, only `to_string`, so
it is modelled as `Int`. -/
structure TraceRequest where
  entry_full_id : String
  args_json : String
  stop_line : Int
deriving DecidableEq

/-- Mirror of `Tracer` (lib.rs lines 87-93). The `child`, `stdin`, `stdout`
and `stderr` handles are summarised by `pid`, an identifier naming the child
process together with its pipe ends; `current_flow` is kept verbatim. -/
structure Tracer where
  pid : Nat
  current_flow : Option String
deriving DecidableEq

/-- Outcome of the blocking `read_line` on the stderr channel (lib.rs line
228). `line s` is `Ok(n)` with `n > 0` and `s` appended to the buffer; `eof`
is `Ok(0)` with the buffer untouched; `ioError` is `Err(e)`, in which case
`BufRead::read_line` guarantees the buffer is restored, hence still empty. -/
inductive ReadOutcome where
  | eof : ReadOutcome
  | line (s : String) : ReadOutcome
  | ioError (msg : String) : ReadOutcome
deriving DecidableEq

/-- One invocation of `get_tracer_data` interacts with the operating system
and the child at fixed program points; this record supplies the outcome of
each interaction. `spawnResult` covers `Tracer::spawn` (spawn plus the three
pipe handle acquisitions, lines 100-118): an error carries the formatted
message, success carries the identifier of the fresh child. `exitBeforeRead`,
`exitAfterRead`, `exitAtEof` and `exitAtReadErr` are the `try_wait` calls at
lines 221, 231, 243 and 253: `some status` models `Ok(Some(status))` (child
observed exited), `none` models a still-running child (an `Err` from
`try_wait` itself is treated identically by the source, as every check is an
`if let Ok(Some(..))`). `parse` is `serde_json::from_str`. -/
structure StepEnv where
  spawnResult : Except String Nat
  writeResult : Option String
  flushResult : Option String
  exitBeforeRead : Option String
  readOutcome : ReadOutcome
  exitAfterRead : Option String
  exitAtEof : Option String
  exitAtReadErr : Option String
  parse : String → Except String JsonValue

/-- Observable interactions of one step invocation with child processes, in
program order. `checkExited p b` records a `try_wait` liveness check on child
`p` reporting `b = true` exactly when the child was observed exited. -/
inductive Action where
  | spawn (pid : Nat) (entry_full_id : String) (args_json : String) (stop_line : Int) : Action
  | kill (pid : Nat) : Action
  | waitExit (pid : Nat) : Action
  | writeStdin (pid : Nat) (data : String) : Action
  | flushStdin (pid : Nat) : Action
  | readLine (pid : Nat) : Action
  | checkExited (pid : Nat) (exited : Bool) : Action
deriving DecidableEq

/-- The distinct `Err(..)` construction sites of `get_tracer_data`, with their
payloads. The source returns formatted strings; each constructor corresponds
to one `format!` call (the line numbers refer to lib.rs): `spawnError` to the
messages produced inside `Tracer::spawn`, `writeError` to line 208,
`flushError` to line 210, `exitedBeforeReadingEvent` to line 222,
`exitedBeforeSendingEvent` to the identical messages at lines 234 and 244,
`stderrEof` to line 246, `exitedWhileReading` to line 254, `readError` to
line 256, `emptyResponse` to line 272, `processReportedError` to line 280 and
`malformedEvent` to line 282. `unwrapPanic` models the `.unwrap()` at line
196, which is unreachable. -/
inductive StepError where
  | spawnError (msg : String) : StepError
  | writeError (msg : String) : StepError
  | flushError (msg : String) : StepError
  | exitedBeforeReadingEvent (status : String) : StepError
  | exitedBeforeSendingEvent (status : String) : StepError
  | stderrEof : StepError
  | exitedWhileReading (status : String) (err : String) : StepError
  | readError (err : String) : StepError
  | emptyResponse : StepError
  | processReportedError (text : String) : StepError
  | malformedEvent (parseErr : String) (text : String) : StepError
  | unwrapPanic : StepError
deriving DecidableEq

/-- Content of the `line` buffer after the `read_line` call at line 228: the
buffer starts empty, `Ok(n)` with `n > 0` appends the data read, while EOF
and a read error leave it empty. -/
def readBuffer : ReadOutcome → String
  | .line s => s
  | _ => ""

/-- Model of `str::trim` (used at line 260 and in `line.trim()` checks):
removes leading and trailing whitespace characters. Stated over the character
list of the string so that it is kernel-computable; Rust trims by the Unicode
White_Space property, of which the ASCII cases are the ones this protocol
meets. -/
def rustTrim (s : String) : String :=
  ⟨((s.data.dropWhile Char.isWhitespace).reverse.dropWhile Char.isWhitespace).reverse⟩

/-- Model of `str::is_empty`: no characters. -/
def strIsEmpty (s : String) : Bool :=
  s.data.isEmpty

/-- Prefix test on character lists, the model of `str::starts_with`. -/
def listStartsWith : List Char → List Char → Bool
  | _, [] => true
  | [], _ :: _ => false
  | a :: s, b :: p => a == b && listStartsWith s p

/-- Model of `str::starts_with` for string literals. -/
def rustStartsWith (s p : String) : Bool :=
  listStartsWith s.data p.data

/-- Model of `Tracer::spawn` (lib.rs lines 96-128). The outcome of
`Command::spawn` and of taking the three pipe handles is supplied by the
environment; on success `current_flow` is set to the request identifier
(line 126). -/
def Tracer.spawn (env : StepEnv) (req : TraceRequest) : Except String Tracer :=
  match env.spawnResult with
  | .error e => .error e
  | .ok pid => .ok { pid := pid, current_flow := some req.entry_full_id }

/-- Error-marker heuristic of line 279: a line that failed to parse is treated
as a process-reported failure when it starts with one of these prefixes. -/
def looksLikeErrorText (line : String) : Bool :=
  rustStartsWith line "Exception" || rustStartsWith line "Traceback" ||
    rustStartsWith line "Error:"

/-- Truncation applied when embedding the offending line into the
parse-failure message (lines 285-289, 500 units). The source slices bytes;
the model counts characters, which agrees on ASCII data. -/
def truncateReceived (line : String) : String :=
  if line.data.length > 500 then String.mk (line.data.take 500) ++ "..." else line

/-- Classification of one event line by the codec of lines 260-292. -/
inductive CodecResult where
  | event (v : JsonValue) : CodecResult
  | emptyLine : CodecResult
  | processReported (text : String) : CodecResult
  | malformed (parseErr : String) (text : String) : CodecResult

/-- Event codec of lines 260-292: trim the raw line; reject an empty result;
otherwise parse as JSON, and on parse failure classify by the error-marker
heuristic. -/
def classifyLine (parse : String → Except String JsonValue) (raw : String) : CodecResult :=
  let line := rustTrim raw
  if strIsEmpty line then .emptyLine
  else
    match parse line with
    | .ok v => .event v
    | .error e =>
      if looksLikeErrorText line then .processReported line
      else .malformed e (truncateReceived line)

/-- Mapping of codec outcomes onto the return sites of lines 271-295. -/
def codecToResult : CodecResult → Except StepError JsonValue
  | .event v => .ok v
  | .emptyLine => .error .emptyResponse
  | .processReported text => .error (.processReportedError text)
  | .malformed e text => .error (.malformedEvent e text)

/-- The `match read_result` of lines 240-258: EOF and a read error re-check
liveness and report; a successful read falls through to the codec of lines
260-295, applied to the read buffer. -/
def afterReadMatch (env : StepEnv) (tracer : Tracer) (lineBuf : String) :
    Except StepError JsonValue × List Action :=
  match env.readOutcome with
  | .eof =>
    (match env.exitAtEof with
     | some status => .error (.exitedBeforeSendingEvent status)
     | none => .error .stderrEof,
     [Action.checkExited tracer.pid env.exitAtEof.isSome])
  | .line _ => (codecToResult (classifyLine env.parse lineBuf), [])
  | .ioError e =>
    (match env.exitAtReadErr with
     | some status => .error (.exitedWhileReading status e)
     | none => .error (.readError e),
     [Action.checkExited tracer.pid env.exitAtReadErr.isSome])

/-- Lines 217-258: the liveness check before the read (line 221), the
blocking `read_line` (line 228), the liveness check after the read (line 231,
which lets a buffer with non-whitespace content through for processing even
when the child has exited), then the dispatch on the read outcome. -/
def readPhase (env : StepEnv) (tracer : Tracer) :
    Except StepError JsonValue × List Action :=
  match env.exitBeforeRead with
  | some status =>
    (.error (.exitedBeforeReadingEvent status), [Action.checkExited tracer.pid true])
  | none =>
    let lineBuf := readBuffer env.readOutcome
    let pre := [Action.checkExited tracer.pid false, Action.readLine tracer.pid,
                Action.checkExited tracer.pid env.exitAfterRead.isSome]
    match env.exitAfterRead with
    | some status =>
      if strIsEmpty (rustTrim lineBuf) then (.error (.exitedBeforeSendingEvent status), pre)
      else
        ((afterReadMatch env tracer lineBuf).1, pre ++ (afterReadMatch env tracer lineBuf).2)
    | none =>
      ((afterReadMatch env tracer lineBuf).1, pre ++ (afterReadMatch env tracer lineBuf).2)

/-- Lines 199-258 for the selected tracer: the continuation write is skipped
on the first call of a session (lines 204-213); otherwise the stop line is
written in decimal followed by a newline to the child stdin and the pipe is
flushed, then the read phase runs. -/
def stepProtocol (env : StepEnv) (req : TraceRequest) (tracer : Tracer)
    (is_first_call : Bool) : Except StepError JsonValue × List Action :=
  if is_first_call then readPhase env tracer
  else
    match env.writeResult with
    | some e =>
      (.error (.writeError e), [Action.writeStdin tracer.pid (toString req.stop_line ++ "\n")])
    | none =>
      match env.flushResult with
      | some e =>
        (.error (.flushError e),
         [Action.writeStdin tracer.pid (toString req.stop_line ++ "\n"),
          Action.flushStdin tracer.pid])
      | none =>
        ((readPhase env tracer).1,
         Action.writeStdin tracer.pid (toString req.stop_line ++ "\n") ::
           Action.flushStdin tracer.pid :: (readPhase env tracer).2)

/-- Lines 174-296, given the store contents after the first-time spawn:
detect a flow switch (lines 175-179); on a switch, kill the old child and
wait for its exit, both best-effort (lines 187-190), then respawn (line 193).
A respawn failure propagates through `?` before the store assignment, so the
old tracer remains in the store. The protocol then runs with
`is_first_call = first_time || needs_new_tracer` (line 201). The final
branch models the `.unwrap()` of line 196, reachable only from an empty
store with `first_time = false`, which `get_tracer_data` never produces. -/
def afterSpawn (env : StepEnv) (req : TraceRequest) (first_time : Bool)
    (store1 : Option Tracer) (acts1 : List Action) :
    Except StepError JsonValue × Option Tracer × List Action :=
  let needs_new_tracer : Bool :=
    match store1 with
    | some tracer => tracer.current_flow != some req.entry_full_id
    | none => false
  if needs_new_tracer then
    let killActs : List Action :=
      match store1 with
      | some old => [Action.kill old.pid, Action.waitExit old.pid]
      | none => []
    match Tracer.spawn env req with
    | .error e => (.error (.spawnError e), store1, acts1 ++ killActs)
    | .ok t =>
      ((stepProtocol env req t (first_time || needs_new_tracer)).1, some t,
       acts1 ++ killActs ++
         Action.spawn t.pid req.entry_full_id req.args_json req.stop_line ::
           (stepProtocol env req t (first_time || needs_new_tracer)).2)
  else
    match store1 with
    | some tracer =>
      ((stepProtocol env req tracer (first_time || needs_new_tracer)).1, some tracer,
       acts1 ++ (stepProtocol env req tracer (first_time || needs_new_tracer)).2)
    | none => (.error .unwrapPanic, store1, acts1)

/-- Lines 150-296, one invocation of the step command. `store` is the
contents of the shared `Mutex<Option<Tracer>>` slot on entry; the returned
option is its contents on exit, and the action list records the process
interactions in program order. On a first-time spawn failure the `?` operator
returns before the slot is assigned, leaving it empty. -/
def get_tracer_data (env : StepEnv) (req : TraceRequest) (store : Option Tracer) :
    Except StepError JsonValue × Option Tracer × List Action :=
  let first_time := store.isNone
  if first_time then
    match Tracer.spawn env req with
    | .error e => (.error (.spawnError e), store, [])
    | .ok t =>
      afterSpawn env req first_time (some t)
        [Action.spawn t.pid req.entry_full_id req.args_json req.stop_line]
  else
    afterSpawn env req first_time store []

/-- Sequencing of step invocations against the shared store: each invocation
runs under the store lock, threads the store to the next one, and the action
traces concatenate in order. The per-invocation results are collected. -/
def runSteps : Option Tracer → List (StepEnv × TraceRequest) →
    List (Except StepError JsonValue) × Option Tracer × List Action
  | store, [] => ([], store, [])
  | store, (env, req) :: rest =>
    ((get_tracer_data env req store).1 ::
       (runSteps (get_tracer_data env req store).2.1 rest).1,
     (runSteps (get_tracer_data env req store).2.1 rest).2.1,
     (get_tracer_data env req store).2.2 ++
       (runSteps (get_tracer_data env req store).2.1 rest).2.2)

/-- Pipe interactions with a child process: stdin writes and flushes, and
event-channel reads. -/
def isPipeAction : Action → Bool
  | .writeStdin _ _ => true
  | .flushStdin _ => true
  | .readLine _ => true
  | _ => false

/-- An action that observes, through a `try_wait` liveness check, that the
child has exited. -/
def isExitedCheck : Action → Bool
  | .checkExited _ b => b
  | _ => false

/-- Kill actions, used to state teardown properties. -/
def isKill : Action → Bool
  | .kill _ => true
  | _ => false

/-- Spawn actions, used to state session-replacement properties. -/
def isSpawn : Action → Bool
  | .spawn _ _ _ _ => true
  | _ => false

/-- Holds of a trace in which no pipe interaction occurs anywhere after a
liveness check that reported the child exited. -/
def cleanAfterExit : List Action → Bool
  | [] => true
  | a :: rest =>
    (!isExitedCheck a || rest.all (fun b => !isPipeAction b)) && cleanAfterExit rest

/-- The read-phase failures of lines 217-258: child-exit detection, EOF, or a
read error on the event channel. -/
def isReadFailureError : Except StepError JsonValue → Bool
  | .error (.exitedBeforeReadingEvent _) => true
  | .error (.exitedBeforeSendingEvent _) => true
  | .error .stderrEof => true
  | .error (.exitedWhileReading _ _) => true
  | .error (.readError _) => true
  | _ => false

/-- Captured outcome of a finished child process, as produced by
`Command::output()`, which waits for exit and collects the output streams.
`success` is `status.success()`; `stdout` is the lossy UTF-8 decoding of the
captured standard output. -/
structure ProcessOutput where
  success : Bool
  stdout : String
deriving DecidableEq

/-- Environment of one `get_function_signature` call: the outcome of the
one-shot `Command::output()` invocation (lines 309-318) and the external
JSON parser. -/
structure SigEnv where
  outputResult : Except String ProcessOutput
  parse : String → Except String JsonValue

/-- The `Err(..)` construction sites of `get_function_signature`:
`runError` is line 318, `scriptError` is line 323 (carrying the captured
standard output), `parseError` is line 327. -/
inductive SigError where
  | runError (msg : String) : SigError
  | scriptError (stdoutText : String) : SigError
  | parseError (err : String) (received : String) : SigError
deriving DecidableEq

/-- The repository path hard-coded at line 305. -/
def repoPath : String := "/home/bimal/Documents/ucsd/research/code/trap"

/-- Argument list passed to the one-shot process (lines 310-317): unbuffered
flag, script path, repository root, entry identifier, and the
signature-query flag. -/
def signature_args (repo entry_full_id : String) : List String :=
  ["-u", "../tools/get_tracer.py", "--repo_root", repo, "--entry_full_id", entry_full_id,
   "--get_signature"]

/-- Lines 301-330: the signature query. It takes no session store and returns
none, matching the source command, which never touches the shared tracer
state. The returned pair is the argument list of the one-shot invocation and
the classified result: spawn failure, non-zero exit surfacing the captured
standard output, parse failure, or the parsed JSON value. -/
def get_function_signature (env : SigEnv) (entry_full_id : String) :
    List String × Except SigError JsonValue :=
  (signature_args repoPath entry_full_id,
   match env.outputResult with
   | .error e => .error (.runError e)
   | .ok out =>
     if !out.success then .error (.scriptError out.stdout)
     else
       match env.parse out.stdout with
       | .error e => .error (.parseError e out.stdout)
       | .ok v => .ok v)

/-- Concrete external parser used by the concrete scenarios below: it accepts
the five-character JSON document `null` and rejects everything else. -/
def parseFixture : String → Except String JsonValue :=
  fun s => if s = "null" then .ok .null else .error "expected value"

/-- Step request targeting flow `f1` at stop line 10. -/
def reqF1 : TraceRequest := { entry_full_id := "f1", args_json := "[]", stop_line := 10 }

/-- Step request targeting flow `f1` at stop line 20. -/
def reqF1b : TraceRequest := { entry_full_id := "f1", args_json := "[]", stop_line := 20 }

/-- Step request targeting flow `f2` at stop line 5. -/
def reqF2 : TraceRequest := { entry_full_id := "f2", args_json := "[]", stop_line := 5 }

/-- Environment of a healthy step: spawning succeeds as child 0, the pipes
work, every liveness check finds the child running, and it emits one JSON
event line. -/
def envOk : StepEnv :=
  { spawnResult := .ok 0, writeResult := none, flushResult := none,
    exitBeforeRead := none, readOutcome := .line "null\n", exitAfterRead := none,
    exitAtEof := none, exitAtReadErr := none, parse := parseFixture }

/-- Environment in which the liveness check before the read finds the child
already exited. -/
def envExitedBeforeRead : StepEnv :=
  { envOk with exitBeforeRead := some "ExitStatus(1)" }

/-- Environment in which spawning the child fails. -/
def envSpawnFail : StepEnv :=
  { envOk with spawnResult := .error "Failed to spawn Python process: boom" }

/-- Environment in which the child emits an empty line as its event. -/
def envEmptyLine : StepEnv :=
  { envOk with readOutcome := .line "\n" }

/-- Environment in which writing the continuation signal fails. -/
def envWriteFail : StepEnv :=
  { envOk with writeResult := some "Broken pipe" }

/-- Environment in which the child emits a full event line but the liveness
check after the read finds it already exited. -/
def envExitAfterData : StepEnv :=
  { envOk with exitAfterRead := some "ExitStatus(0)" }

/-- Additional fixture for the signature-query witness: the one-shot process
exits non-zero after printing diagnostic text. -/
def sigEnvFail : SigEnv :=
  { outputResult := .ok { success := false, stdout := "bad args" }, parse := parseFixture }

lemma rustTrim_empty : rustTrim "" = "" := rfl

lemma strIsEmpty_nil : strIsEmpty "" = true := rfl

lemma strIsEmpty_iff (s : String) : strIsEmpty s = true ↔ s = "" := by
  cases s with
  | mk data =>
    cases data with
    | nil => simp [strIsEmpty]
    | cons c cs =>
      simp only [strIsEmpty, List.isEmpty_cons]
      constructor
      · intro h; simp at h
      · intro h
        have hd := congrArg String.data h
        simp at hd

lemma gtd_first_spawn_err (env : StepEnv) (req : TraceRequest) (e : String)
    (h : env.spawnResult = .error e) :
    get_tracer_data env req none = (.error (.spawnError e), none, []) := by
  simp [get_tracer_data, Tracer.spawn, h]

lemma gtd_first_spawn_ok (env : StepEnv) (req : TraceRequest) (pid : Nat)
    (h : env.spawnResult = .ok pid) :
    get_tracer_data env req none =
      ((stepProtocol env req ⟨pid, some req.entry_full_id⟩ true).1,
       some ⟨pid, some req.entry_full_id⟩,
       Action.spawn pid req.entry_full_id req.args_json req.stop_line ::
         (stepProtocol env req ⟨pid, some req.entry_full_id⟩ true).2) := by
  simp [get_tracer_data, Tracer.spawn, h, afterSpawn]

lemma gtd_reuse (env : StepEnv) (req : TraceRequest) (old : Tracer)
    (h : old.current_flow = some req.entry_full_id) :
    get_tracer_data env req (some old) =
      ((stepProtocol env req old false).1, some old, (stepProtocol env req old false).2) := by
  simp [get_tracer_data, afterSpawn, h]

lemma gtd_switch_spawn_err (env : StepEnv) (req : TraceRequest) (old : Tracer) (e : String)
    (hflow : old.current_flow ≠ some req.entry_full_id) (h : env.spawnResult = .error e) :
    get_tracer_data env req (some old) =
      (.error (.spawnError e), some old, [Action.kill old.pid, Action.waitExit old.pid]) := by
  have hb : (old.current_flow != some req.entry_full_id) = true := bne_iff_ne.mpr hflow
  simp [get_tracer_data, afterSpawn, Tracer.spawn, h, hb]

lemma gtd_switch_spawn_ok (env : StepEnv) (req : TraceRequest) (old : Tracer) (pid : Nat)
    (hflow : old.current_flow ≠ some req.entry_full_id) (h : env.spawnResult = .ok pid) :
    get_tracer_data env req (some old) =
      ((stepProtocol env req ⟨pid, some req.entry_full_id⟩ true).1,
       some ⟨pid, some req.entry_full_id⟩,
       Action.kill old.pid :: Action.waitExit old.pid ::
         Action.spawn pid req.entry_full_id req.args_json req.stop_line ::
           (stepProtocol env req ⟨pid, some req.entry_full_id⟩ true).2) := by
  have hb : (old.current_flow != some req.entry_full_id) = true := bne_iff_ne.mpr hflow
  simp [get_tracer_data, afterSpawn, Tracer.spawn, h, hb]

lemma afterReadMatch_mem (env : StepEnv) (t : Tracer) (lineBuf : String) (a : Action)
    (h : a ∈ (afterReadMatch env t lineBuf).2) : ∃ b, a = Action.checkExited t.pid b := by
  cases hro : env.readOutcome <;> simp [afterReadMatch, hro] at h
  · exact ⟨_, h⟩
  · exact ⟨_, h⟩

lemma readPhase_mem (env : StepEnv) (t : Tracer) (a : Action)
    (h : a ∈ (readPhase env t).2) :
    (∃ b, a = Action.checkExited t.pid b) ∨ a = Action.readLine t.pid := by
  rcases hbr : env.exitBeforeRead with _ | status
  · rcases har : env.exitAfterRead with _ | status2
    · simp [readPhase, hbr, har] at h
      rcases h with h | h | h | h
      · exact .inl ⟨_, h⟩
      · exact .inr h
      · exact .inl ⟨_, h⟩
      · exact .inl (afterReadMatch_mem env t _ a h)
    · by_cases he : strIsEmpty (rustTrim (readBuffer env.readOutcome)) = true
      · simp [readPhase, hbr, har, he] at h
        rcases h with h | h | h
        · exact .inl ⟨_, h⟩
        · exact .inr h
        · exact .inl ⟨_, h⟩
      · simp [readPhase, hbr, har, he] at h
        rcases h with h | h | h | h
        · exact .inl ⟨_, h⟩
        · exact .inr h
        · exact .inl ⟨_, h⟩
        · exact .inl (afterReadMatch_mem env t _ a h)
  · simp [readPhase, hbr] at h
    exact .inl ⟨_, h⟩

lemma stepProtocol_mem (env : StepEnv) (req : TraceRequest) (t : Tracer) (f : Bool) (a : Action)
    (h : a ∈ (stepProtocol env req t f).2) :
    (∃ b, a = Action.checkExited t.pid b) ∨ a = Action.readLine t.pid ∨
      a = Action.writeStdin t.pid (toString req.stop_line ++ "\n") ∨
      a = Action.flushStdin t.pid := by
  cases f
  · rcases hw : env.writeResult with _ | e
    · rcases hfl : env.flushResult with _ | e
      · simp [stepProtocol, hw, hfl] at h
        rcases h with h | h | h
        · exact .inr (.inr (.inl h))
        · exact .inr (.inr (.inr h))
        · rcases readPhase_mem env t a h with h' | h'
          · exact .inl h'
          · exact .inr (.inl h')
      · simp [stepProtocol, hw, hfl] at h
        rcases h with h | h
        · exact .inr (.inr (.inl h))
        · exact .inr (.inr (.inr h))
    · simp [stepProtocol, hw] at h
      exact .inr (.inr (.inl h))
  · simp [stepProtocol] at h
    rcases readPhase_mem env t a h with h' | h'
    · exact .inl h'
    · exact .inr (.inl h')

lemma stepProtocol_first_no_write (env : StepEnv) (req : TraceRequest) (t : Tracer)
    (p : Nat) (s : String) : Action.writeStdin p s ∉ (stepProtocol env req t true).2 := by
  intro h
  rcases stepProtocol_mem env req t true (Action.writeStdin p s) h with ⟨b, hb⟩ | hb | hb | hb
  · cases hb
  · cases hb
  · -- a writeStdin in a first call comes from readPhase, impossible
    simp [stepProtocol] at h
    rcases readPhase_mem env t _ h with ⟨b, hb'⟩ | hb'
    · cases hb'
    · cases hb'
  · cases hb

lemma stepProtocol_cont_write (env : StepEnv) (req : TraceRequest) (t : Tracer) :
    Action.writeStdin t.pid (toString req.stop_line ++ "\n") ∈ (stepProtocol env req t false).2 := by
  rcases hw : env.writeResult with _ | e
  · rcases hfl : env.flushResult with _ | e <;> simp [stepProtocol, hw, hfl]
  · simp [stepProtocol, hw]

lemma stepProtocol_cont_flush (env : StepEnv) (req : TraceRequest) (t : Tracer)
    (hw : env.writeResult = none) :
    Action.flushStdin t.pid ∈ (stepProtocol env req t false).2 := by
  rcases hfl : env.flushResult with _ | e <;> simp [stepProtocol, hw, hfl]

lemma cleanAfterExit_cons (a : Action) (l : List Action) (ha : isExitedCheck a = false)
    (hl : cleanAfterExit l = true) : cleanAfterExit (a :: l) = true := by
  simp [cleanAfterExit, ha, hl]

lemma cleanAfterExit_append (xs ys : List Action) (hx : ∀ a ∈ xs, isExitedCheck a = false)
    (hy : cleanAfterExit ys = true) : cleanAfterExit (xs ++ ys) = true := by
  induction xs with
  | nil => simpa using hy
  | cons a l ih =>
    simp only [List.cons_append]
    exact cleanAfterExit_cons _ _ (hx a (by simp)) (ih (fun b hb => hx b (by simp [hb])))

lemma readPhase_clean (env : StepEnv) (t : Tracer) :
    cleanAfterExit (readPhase env t).2 = true := by
  rcases hbr : env.exitBeforeRead with _ | status
  · rcases har : env.exitAfterRead with _ | status2
    · cases hro : env.readOutcome <;>
        simp [readPhase, hbr, har, hro, afterReadMatch, cleanAfterExit, isExitedCheck,
          isPipeAction]
    · rcases hro : env.readOutcome with _ | s | m
      · simp [readPhase, hbr, har, hro, afterReadMatch, cleanAfterExit, isExitedCheck,
          isPipeAction, readBuffer, rustTrim_empty, strIsEmpty_nil]
      · by_cases he : strIsEmpty (rustTrim s) = true <;>
          simp [readPhase, hbr, har, hro, he, afterReadMatch, cleanAfterExit, isExitedCheck,
            isPipeAction, readBuffer]
      · simp [readPhase, hbr, har, hro, afterReadMatch, cleanAfterExit, isExitedCheck,
          isPipeAction, readBuffer, rustTrim_empty, strIsEmpty_nil]
  · simp [readPhase, hbr, cleanAfterExit, isExitedCheck, isPipeAction]

lemma stepProtocol_clean (env : StepEnv) (req : TraceRequest) (t : Tracer) (f : Bool) :
    cleanAfterExit (stepProtocol env req t f).2 = true := by
  cases f
  · rcases hw : env.writeResult with _ | e
    · rcases hfl : env.flushResult with _ | e
      · simp only [stepProtocol, hw, hfl, Bool.false_eq_true, if_false]
        exact cleanAfterExit_cons _ _ rfl (cleanAfterExit_cons _ _ rfl (readPhase_clean env t))
      · simp [stepProtocol, hw, hfl, cleanAfterExit, isExitedCheck]
    · simp [stepProtocol, hw, cleanAfterExit, isExitedCheck]
  · simpa [stepProtocol] using readPhase_clean env t

lemma codecToResult_not_exited (c : CodecResult) (status : String) :
    codecToResult c ≠ .error (.exitedBeforeSendingEvent status) := by
  cases c <;> simp [codecToResult]

lemma readPhase_fst_line (env : StepEnv) (t : Tracer) (s : String)
    (hbr : env.exitBeforeRead = none) (hro : env.readOutcome = .line s)
    (hs : strIsEmpty (rustTrim s) = false) :
    (readPhase env t).1 = codecToResult (classifyLine env.parse s) := by
  rcases har : env.exitAfterRead with _ | status
  · simp [readPhase, hbr, har, hro, afterReadMatch, readBuffer]
  · simp [readPhase, hbr, har, hro, afterReadMatch, readBuffer, hs]

lemma stepProtocol_fst_line (env : StepEnv) (req : TraceRequest) (t : Tracer) (f : Bool)
    (s : String) (hw : env.writeResult = none) (hfl : env.flushResult = none)
    (hbr : env.exitBeforeRead = none) (hro : env.readOutcome = .line s)
    (hs : strIsEmpty (rustTrim s) = false) :
    (stepProtocol env req t f).1 = codecToResult (classifyLine env.parse s) := by
  cases f
  · simp only [stepProtocol, hw, hfl, Bool.false_eq_true, if_false]
    exact readPhase_fst_line env t s hbr hro hs
  · simpa [stepProtocol] using readPhase_fst_line env t s hbr hro hs

lemma readPhase_exited_sending (env : StepEnv) (t : Tracer) (status : String)
    (h : (readPhase env t).1 = .error (.exitedBeforeSendingEvent status)) :
    rustTrim (readBuffer env.readOutcome) = "" := by
  rcases hbr : env.exitBeforeRead with _ | st
  · rcases har : env.exitAfterRead with _ | st2
    · cases hro : env.readOutcome
      · simp [readBuffer, rustTrim_empty]
      · exfalso
        simp [readPhase, hbr, har, hro, afterReadMatch, readBuffer] at h
        exact codecToResult_not_exited _ _ h
      · simp [readBuffer, rustTrim_empty]
    · rcases hro : env.readOutcome with _ | s | m
      · simp [readBuffer, rustTrim_empty]
      · by_cases he : strIsEmpty (rustTrim s) = true
        · simp only [readBuffer]
          exact (strIsEmpty_iff _).mp he
        · exfalso
          simp [readPhase, hbr, har, hro, he, afterReadMatch, readBuffer] at h
          exact codecToResult_not_exited _ _ h
      · simp [readBuffer, rustTrim_empty]
  · exfalso
    simp [readPhase, hbr] at h

lemma stepProtocol_exited_sending (env : StepEnv) (req : TraceRequest) (t : Tracer) (f : Bool)
    (status : String)
    (h : (stepProtocol env req t f).1 = .error (.exitedBeforeSendingEvent status)) :
    rustTrim (readBuffer env.readOutcome) = "" := by
  cases f
  · rcases hw : env.writeResult with _ | e
    · rcases hfl : env.flushResult with _ | e
      · simp only [stepProtocol, hw, hfl, Bool.false_eq_true, if_false] at h
        exact readPhase_exited_sending env t status h
      · exfalso; simp [stepProtocol, hw, hfl] at h
    · exfalso; simp [stepProtocol, hw] at h
  · simp only [stepProtocol, if_true] at h
    exact readPhase_exited_sending env t status h

/-- C1 (counterexample): the claim states that a step failing on child-exit
detection returns a typed error and clears the Session Store. On the concrete
run below the step does return the typed child-exited error, yet the store
still holds the freshly spawned session, so the store is not cleared. -/
theorem C1_counterexample :
    isReadFailureError (get_tracer_data envExitedBeforeRead reqF1 none).1 = true
    ∧ (get_tracer_data envExitedBeforeRead reqF1 none).2.1 ≠ none := by
  constructor
  · rfl
  · decide

/-- C1 (amended): whenever a step returns one of the read-phase failures
(read error, EOF, or child exit detected), a typed error is returned but the
Session Store is left non-empty: the session is retained, so the next
StepRequest does not start fresh in the Absent state. -/
theorem C1_amended (env : StepEnv) (req : TraceRequest) (store : Option Tracer)
    (h : isReadFailureError (get_tracer_data env req store).1 = true) :
    ((get_tracer_data env req store).2.1).isSome = true := by
  rcases store with _ | old
  · rcases hs : env.spawnResult with e | pid
    · rw [gtd_first_spawn_err env req e hs] at h
      simp [isReadFailureError] at h
    · rw [gtd_first_spawn_ok env req pid hs]
      rfl
  · by_cases hflow : old.current_flow = some req.entry_full_id
    · rw [gtd_reuse env req old hflow]
      rfl
    · rcases hs : env.spawnResult with e | pid
      · rw [gtd_switch_spawn_err env req old e hflow hs]
        rfl
      · rw [gtd_switch_spawn_ok env req old pid hflow hs]
        rfl

/-- C1 (witness): concrete instance of the amended theorem. -/
theorem C1_witness :
    isReadFailureError (get_tracer_data envExitedBeforeRead reqF1 none).1 = true
    ∧ ((get_tracer_data envExitedBeforeRead reqF1 none).2.1).isSome = true :=
  ⟨rfl, C1_amended envExitedBeforeRead reqF1 none rfl⟩

/-- C2: a StepRequest whose flow differs from the active session kills the
old child and waits for its exit before the replacement is spawned (the first
three recorded actions are kill, wait, spawn in that order), and the whole
invocation performs no continuation write. -/
theorem C2_flow_switch (env : StepEnv) (req : TraceRequest) (old : Tracer)
    (hflow : old.current_flow ≠ some req.entry_full_id) :
    (get_tracer_data env req (some old)).2.2.take 2 =
        [Action.kill old.pid, Action.waitExit old.pid]
    ∧ (∀ pid, env.spawnResult = .ok pid →
        (get_tracer_data env req (some old)).2.2.take 3 =
          [Action.kill old.pid, Action.waitExit old.pid,
           Action.spawn pid req.entry_full_id req.args_json req.stop_line])
    ∧ ∀ p s, Action.writeStdin p s ∉ (get_tracer_data env req (some old)).2.2 := by
  rcases hs : env.spawnResult with e | pid
  · rw [gtd_switch_spawn_err env req old e hflow hs]
    refine ⟨rfl, ?_, ?_⟩
    · intro pid hpid
      simp [hs] at hpid
    · intro p s hmem
      simp at hmem
  · rw [gtd_switch_spawn_ok env req old pid hflow hs]
    refine ⟨rfl, ?_, ?_⟩
    · intro pid2 hpid
      simp [hs] at hpid
      subst hpid
      rfl
    · intro p s hmem
      simp at hmem
      exact stepProtocol_first_no_write env req _ p s hmem

/-- C2 (witness): concrete flow switch from f1 to f2. -/
theorem C2_witness :
    (Tracer.mk 7 (some "f1")).current_flow ≠ some "f2"
    ∧ ((get_tracer_data envOk reqF2 (some (Tracer.mk 7 (some "f1")))).2.2.take 2 =
          [Action.kill 7, Action.waitExit 7]
      ∧ (∀ pid, envOk.spawnResult = .ok pid →
          (get_tracer_data envOk reqF2 (some (Tracer.mk 7 (some "f1")))).2.2.take 3 =
            [Action.kill 7, Action.waitExit 7, Action.spawn pid "f2" "[]" 5])
      ∧ ∀ p s, Action.writeStdin p s ∉
          (get_tracer_data envOk reqF2 (some (Tracer.mk 7 (some "f1")))).2.2) :=
  ⟨by decide, C2_flow_switch envOk reqF2 (Tracer.mk 7 (some "f1")) (by decide)⟩

/-- C3: a continuation write occurs in a step invocation if and only if the
request reuses an existing session with a matching flow; when it does, the
data written is the decimal stop line followed by a newline on the stdin of
that session, followed (when the write succeeds) by a flush, and nothing else
is ever written. In particular the first request of a fresh session writes
nothing. -/
theorem C3_continuation_write_iff (env : StepEnv) (req : TraceRequest)
    (store : Option Tracer) :
    ((∃ p s, Action.writeStdin p s ∈ (get_tracer_data env req store).2.2) ↔
      ∃ t, store = some t ∧ t.current_flow = some req.entry_full_id)
    ∧ ∀ t, store = some t → t.current_flow = some req.entry_full_id →
        Action.writeStdin t.pid (toString req.stop_line ++ "\n") ∈
            (get_tracer_data env req store).2.2
        ∧ (env.writeResult = none →
            Action.flushStdin t.pid ∈ (get_tracer_data env req store).2.2)
        ∧ ∀ p s, Action.writeStdin p s ∈ (get_tracer_data env req store).2.2 →
            p = t.pid ∧ s = toString req.stop_line ++ "\n" := by
  constructor
  · constructor
    · rintro ⟨p, s, hmem⟩
      rcases store with _ | old
      · rcases hs : env.spawnResult with e | pid
        · rw [gtd_first_spawn_err env req e hs] at hmem
          simp at hmem
        · rw [gtd_first_spawn_ok env req pid hs] at hmem
          simp at hmem
          exact absurd hmem (stepProtocol_first_no_write env req _ p s)
      · by_cases hflow : old.current_flow = some req.entry_full_id
        · exact ⟨old, rfl, hflow⟩
        · rcases hs : env.spawnResult with e | pid
          · rw [gtd_switch_spawn_err env req old e hflow hs] at hmem
            simp at hmem
          · rw [gtd_switch_spawn_ok env req old pid hflow hs] at hmem
            simp at hmem
            exact absurd hmem (stepProtocol_first_no_write env req _ p s)
    · rintro ⟨t, rfl, hflow⟩
      rw [gtd_reuse env req t hflow]
      exact ⟨t.pid, toString req.stop_line ++ "\n", stepProtocol_cont_write env req t⟩
  · rintro t rfl hflow
    rw [gtd_reuse env req t hflow]
    refine ⟨stepProtocol_cont_write env req t,
      fun hw => stepProtocol_cont_flush env req t hw, ?_⟩
    intro p s hmem
    rcases stepProtocol_mem env req t false _ hmem with ⟨b, hb⟩ | hb | hb | hb
    · simp at hb
    · simp at hb
    · injection hb with h1 h2
      exact ⟨h1, h2⟩
    · simp at hb

/-- C3 (witness): concrete matching-flow reuse writes the continuation. -/
theorem C3_witness :
    ((Tracer.mk 1 (some "f1")) : Tracer).current_flow = some "f1"
    ∧ Action.writeStdin 1 "20\n" ∈
        (get_tracer_data envOk reqF1b (some (Tracer.mk 1 (some "f1")))).2.2 :=
  ⟨rfl,
   ((C3_continuation_write_iff envOk reqF1b (some (Tracer.mk 1 (some "f1")))).2
     (Tracer.mk 1 (some "f1")) rfl rfl).1⟩

/-- C4: session identity is decided by the entry identifier alone. A request
whose entry id equals the stored current_flow reuses the session unchanged
(the store keeps the same tracer, no kill and no spawn occur) whatever its
args_json is; a request with a different entry id kills the old child, and on
a successful respawn the store holds a fresh tracer whose current_flow is the
new entry id. -/
theorem C4_session_identity (env : StepEnv) (req : TraceRequest) (old : Tracer) :
    (old.current_flow = some req.entry_full_id →
      (get_tracer_data env req (some old)).2.1 = some old
      ∧ (get_tracer_data env req (some old)).2.2.all (fun a => !isKill a) = true
      ∧ (get_tracer_data env req (some old)).2.2.all (fun a => !isSpawn a) = true)
    ∧ (old.current_flow ≠ some req.entry_full_id →
      Action.kill old.pid ∈ (get_tracer_data env req (some old)).2.2
      ∧ ∀ pid, env.spawnResult = .ok pid →
          (get_tracer_data env req (some old)).2.1 =
            some { pid := pid, current_flow := some req.entry_full_id }
          ∧ Action.spawn pid req.entry_full_id req.args_json req.stop_line ∈
              (get_tracer_data env req (some old)).2.2) := by
  constructor
  · intro hflow
    rw [gtd_reuse env req old hflow]
    refine ⟨rfl, ?_, ?_⟩
    · rw [List.all_eq_true]
      intro a ha
      rcases stepProtocol_mem env req old false a ha with ⟨b, hb⟩ | hb | hb | hb <;>
        subst hb <;> rfl
    · rw [List.all_eq_true]
      intro a ha
      rcases stepProtocol_mem env req old false a ha with ⟨b, hb⟩ | hb | hb | hb <;>
        subst hb <;> rfl
  · intro hflow
    rcases hs : env.spawnResult with e | pid
    · rw [gtd_switch_spawn_err env req old e hflow hs]
      refine ⟨by simp, ?_⟩
      intro pid hpid
      simp [hs] at hpid
    · rw [gtd_switch_spawn_ok env req old pid hflow hs]
      refine ⟨by simp, ?_⟩
      intro pid2 hpid
      simp [hs] at hpid
      subst hpid
      exact ⟨rfl, by simp⟩

/-- C4 (witness): a request with matching entry id but different args_json
reuses the session. -/
theorem C4_witness :
    (Tracer.mk 3 (some "f1")).current_flow =
      some ({ entry_full_id := "f1", args_json := "[42]", stop_line := 10 } :
        TraceRequest).entry_full_id
    ∧ ((get_tracer_data envOk
          { entry_full_id := "f1", args_json := "[42]", stop_line := 10 }
          (some (Tracer.mk 3 (some "f1")))).2.1 = some (Tracer.mk 3 (some "f1"))
      ∧ (get_tracer_data envOk
          { entry_full_id := "f1", args_json := "[42]", stop_line := 10 }
          (some (Tracer.mk 3 (some "f1")))).2.2.all (fun a => !isKill a) = true
      ∧ (get_tracer_data envOk
          { entry_full_id := "f1", args_json := "[42]", stop_line := 10 }
          (some (Tracer.mk 3 (some "f1")))).2.2.all (fun a => !isSpawn a) = true) :=
  ⟨rfl,
   (C4_session_identity envOk
     { entry_full_id := "f1", args_json := "[42]", stop_line := 10 }
     (Tracer.mk 3 (some "f1"))).1 rfl⟩

/-- C5 (counterexample): the claim states that a session child is never
written to after a liveness check observed it exited. In the concrete
two-step run below, the first step observes the child exited (and the store
is not cleared), and the second step then writes the continuation signal to
the stdin of that same child, violating the claim. -/
theorem C5_counterexample :
    (runSteps none [(envExitedBeforeRead, reqF1), (envWriteFail, reqF1b)]).2.2 =
      [Action.spawn 0 "f1" "[]" 10, Action.checkExited 0 true, Action.writeStdin 0 "20\n"]
    ∧ cleanAfterExit
        [Action.spawn 0 "f1" "[]" 10, Action.checkExited 0 true,
         Action.writeStdin 0 "20\n"] = false :=
  ⟨rfl, rfl⟩

/-- C5 (amended): within any single step invocation the property holds: once
a liveness check observes the child exited, that invocation performs no
further pipe write, flush or read. Across invocations it fails, because the
store is not cleared on error (see the counterexample). -/
theorem C5_amended (env : StepEnv) (req : TraceRequest) (store : Option Tracer) :
    cleanAfterExit (get_tracer_data env req store).2.2 = true := by
  rcases store with _ | old
  · rcases hs : env.spawnResult with e | pid
    · rw [gtd_first_spawn_err env req e hs]
      rfl
    · rw [gtd_first_spawn_ok env req pid hs]
      exact cleanAfterExit_cons _ _ rfl (stepProtocol_clean env req _ true)
  · by_cases hflow : old.current_flow = some req.entry_full_id
    · rw [gtd_reuse env req old hflow]
      exact stepProtocol_clean env req old false
    · rcases hs : env.spawnResult with e | pid
      · rw [gtd_switch_spawn_err env req old e hflow hs]
        rfl
      · rw [gtd_switch_spawn_ok env req old pid hflow hs]
        exact cleanAfterExit_cons _ _ rfl (cleanAfterExit_cons _ _ rfl
          (cleanAfterExit_cons _ _ rfl (stepProtocol_clean env req _ true)))

/-- C6 (counterexample): the claim states that a spawn failure always leaves
the Session Store empty. In the concrete run below the second request
switches flow, the respawn fails, and the store still holds the old killed
session rather than being empty. -/
theorem C6_counterexample :
    (runSteps none [(envOk, reqF1), (envSpawnFail, reqF2)]).1 =
      [Except.ok JsonValue.null,
       Except.error (StepError.spawnError "Failed to spawn Python process: boom")]
    ∧ (runSteps none [(envOk, reqF1), (envSpawnFail, reqF2)]).2.1 =
        some { pid := 0, current_flow := some "f1" } :=
  ⟨rfl, rfl⟩

/-- C6 (amended): a spawn failure reports the spawn error; from the Absent
state the store is indeed left empty, but on a flow-switch respawn failure
the old session (already killed and awaited) remains in the store. -/
theorem C6_amended (env : StepEnv) (req : TraceRequest) (e : String)
    (h : env.spawnResult = .error e) :
    get_tracer_data env req none = (.error (.spawnError e), none, [])
    ∧ ∀ t : Tracer, t.current_flow ≠ some req.entry_full_id →
        get_tracer_data env req (some t) =
          (.error (.spawnError e), some t, [Action.kill t.pid, Action.waitExit t.pid]) :=
  ⟨gtd_first_spawn_err env req e h,
   fun t ht => gtd_switch_spawn_err env req t e ht h⟩

/-- C6 (witness): concrete spawn failure, on both the fresh path and the
flow-switch path. -/
theorem C6_witness :
    envSpawnFail.spawnResult = Except.error "Failed to spawn Python process: boom"
    ∧ get_tracer_data envSpawnFail reqF2 none =
        (.error (.spawnError "Failed to spawn Python process: boom"), none, [])
    ∧ (Tracer.mk 4 (some "f1")).current_flow ≠ some "f2"
    ∧ get_tracer_data envSpawnFail reqF2 (some (Tracer.mk 4 (some "f1"))) =
        (.error (.spawnError "Failed to spawn Python process: boom"),
         some (Tracer.mk 4 (some "f1")), [Action.kill 4, Action.waitExit 4]) :=
  ⟨rfl,
   (C6_amended envSpawnFail reqF2 "Failed to spawn Python process: boom" rfl).1,
   by decide,
   (C6_amended envSpawnFail reqF2 "Failed to spawn Python process: boom" rfl).2
     (Tracer.mk 4 (some "f1")) (by decide)⟩

/-- C7: the codec classifies every event line exactly as claimed: after
trimming, an empty line yields the empty-event error; a non-empty line that
parses as JSON is returned as the event value; a non-empty line that fails to
parse yields the process-reported error carrying the text when it starts with
an error or traceback marker, and otherwise the malformed-event error
carrying the text (truncated for display at 500 characters) and the parse
error. -/
theorem C7_codec_classification (parse : String → Except String JsonValue) (raw : String) :
    (rustTrim raw = "" → classifyLine parse raw = .emptyLine)
    ∧ (∀ v, rustTrim raw ≠ "" → parse (rustTrim raw) = .ok v →
        classifyLine parse raw = .event v)
    ∧ (∀ e, rustTrim raw ≠ "" → parse (rustTrim raw) = .error e →
        looksLikeErrorText (rustTrim raw) = true →
        classifyLine parse raw = .processReported (rustTrim raw))
    ∧ (∀ e, rustTrim raw ≠ "" → parse (rustTrim raw) = .error e →
        looksLikeErrorText (rustTrim raw) = false →
        classifyLine parse raw = .malformed e (truncateReceived (rustTrim raw))) := by
  have hempty : rustTrim raw ≠ "" → strIsEmpty (rustTrim raw) = false := by
    intro hne
    rcases hb : strIsEmpty (rustTrim raw) with _ | _
    · rfl
    · exact absurd ((strIsEmpty_iff _).mp hb) hne
  refine ⟨?_, ?_, ?_, ?_⟩
  · intro h
    simp [classifyLine, (strIsEmpty_iff _).mpr h]
  · intro v hne hp
    simp [classifyLine, hempty hne, hp]
  · intro e hne hp hm
    simp [classifyLine, hempty hne, hp, hm]
  · intro e hne hp hm
    simp [classifyLine, hempty hne, hp, hm]

/-- C7 (witness): a non-JSON line starting with a traceback marker is
classified as a process-reported error. -/
theorem C7_witness :
    rustTrim "Traceback: boom\n" ≠ ""
    ∧ parseFixture (rustTrim "Traceback: boom\n") = .error "expected value"
    ∧ looksLikeErrorText (rustTrim "Traceback: boom\n") = true
    ∧ classifyLine parseFixture "Traceback: boom\n" =
        .processReported (rustTrim "Traceback: boom\n") :=
  ⟨by decide, rfl, rfl,
   (C7_codec_classification parseFixture "Traceback: boom\n").2.2.1 "expected value"
     (by decide) rfl rfl⟩

/-- C8 (counterexample): the claim states that an empty event line tears the
session down (child killed, store cleared). In the concrete run below the
caller does receive the empty-event error, but the store still holds the
session and no kill is ever issued. -/
theorem C8_counterexample :
    (runSteps none [(envOk, reqF1), (envEmptyLine, reqF1b)]).1 =
      [Except.ok JsonValue.null, Except.error StepError.emptyResponse]
    ∧ (runSteps none [(envOk, reqF1), (envEmptyLine, reqF1b)]).2.1 =
        some { pid := 0, current_flow := some "f1" }
    ∧ (runSteps none [(envOk, reqF1), (envEmptyLine, reqF1b)]).2.2.all
        (fun a => !isKill a) = true :=
  ⟨rfl, rfl, rfl⟩

/-- C8 (amended): when a matching-flow step receives an empty event line the
caller gets the empty-event error, but the session is not torn down: the
store still holds the same tracer and the invocation performs no kill. -/
theorem C8_amended (env : StepEnv) (req : TraceRequest) (old : Tracer)
    (hflow : old.current_flow = some req.entry_full_id)
    (h : (get_tracer_data env req (some old)).1 = .error .emptyResponse) :
    (get_tracer_data env req (some old)).2.1 = some old
    ∧ (get_tracer_data env req (some old)).2.2.all (fun a => !isKill a) = true := by
  rw [gtd_reuse env req old hflow]
  refine ⟨rfl, ?_⟩
  rw [List.all_eq_true]
  intro a ha
  rcases stepProtocol_mem env req old false a ha with ⟨b, hb⟩ | hb | hb | hb <;>
    subst hb <;> rfl

/-- C8 (witness): concrete empty-line event on a matching-flow step. -/
theorem C8_witness :
    (Tracer.mk 0 (some "f1")).current_flow = some "f1"
    ∧ (get_tracer_data envEmptyLine reqF1b (some (Tracer.mk 0 (some "f1")))).1 =
        .error .emptyResponse
    ∧ ((get_tracer_data envEmptyLine reqF1b (some (Tracer.mk 0 (some "f1")))).2.1 =
          some (Tracer.mk 0 (some "f1"))
      ∧ (get_tracer_data envEmptyLine reqF1b
          (some (Tracer.mk 0 (some "f1")))).2.2.all (fun a => !isKill a) = true) :=
  ⟨rfl, rfl, C8_amended envEmptyLine reqF1b (Tracer.mk 0 (some "f1")) rfl rfl⟩

/-- C9: the signature query is stateless by construction (it takes no session
store and returns none); its one-shot invocation carries the signature-query
flag, and the result is classified exactly as claimed: spawn failure yields
the run error, a non-zero exit yields an error carrying the captured standard
output, invalid JSON yields the parse error carrying the output, and on a
zero exit with valid JSON the parsed value is returned. -/
theorem C9_signature_query (env : SigEnv) (entry_full_id : String) :
    "--get_signature" ∈ (get_function_signature env entry_full_id).1
    ∧ (∀ e, env.outputResult = .error e →
        (get_function_signature env entry_full_id).2 = .error (.runError e))
    ∧ (∀ out, env.outputResult = .ok out → out.success = false →
        (get_function_signature env entry_full_id).2 = .error (.scriptError out.stdout))
    ∧ (∀ out e, env.outputResult = .ok out → out.success = true →
        env.parse out.stdout = .error e →
        (get_function_signature env entry_full_id).2 = .error (.parseError e out.stdout))
    ∧ (∀ out v, env.outputResult = .ok out → out.success = true →
        env.parse out.stdout = .ok v →
        (get_function_signature env entry_full_id).2 = .ok v) := by
  refine ⟨by simp [get_function_signature, signature_args], ?_, ?_, ?_, ?_⟩
  · intro e h
    simp [get_function_signature, h]
  · intro out h hsucc
    simp [get_function_signature, h, hsucc]
  · intro out e h hsucc hp
    simp [get_function_signature, h, hsucc, hp]
  · intro out v h hsucc hp
    simp [get_function_signature, h, hsucc, hp]

/-- C9 (witness): concrete non-zero exit surfacing the captured output. -/
theorem C9_witness :
    sigEnvFail.outputResult = Except.ok { success := false, stdout := "bad args" }
    ∧ ProcessOutput.success { success := false, stdout := "bad args" } = false
    ∧ (get_function_signature sigEnvFail "pkg.mod.fn").2 =
        .error (.scriptError "bad args") :=
  ⟨rfl, rfl,
   (C9_signature_query sigEnvFail "pkg.mod.fn").2.2.1
     { success := false, stdout := "bad args" } rfl rfl⟩

/-- C10: when the event-channel read returns data with non-whitespace content
and the liveness check after the read then finds the child exited, the step
still processes the line through the codec and returns its result instead of
a child-exited error; conversely, the exited-before-sending-event error is
only ever produced when the read buffer holds no non-whitespace data. -/
theorem C10_data_wins_over_exit :
    (∀ (env : StepEnv) (req : TraceRequest) (store : Option Tracer) (pid : Nat)
        (s status : String),
      env.spawnResult = .ok pid → env.writeResult = none → env.flushResult = none →
      env.exitBeforeRead = none → env.readOutcome = .line s →
      env.exitAfterRead = some status → rustTrim s ≠ "" →
      (get_tracer_data env req store).1 = codecToResult (classifyLine env.parse s))
    ∧ ∀ (env : StepEnv) (req : TraceRequest) (store : Option Tracer) (status : String),
        (get_tracer_data env req store).1 = .error (.exitedBeforeSendingEvent status) →
        rustTrim (readBuffer env.readOutcome) = "" := by
  constructor
  · intro env req store pid s status hs hw hfl hbr hro har htrim
    have hb : strIsEmpty (rustTrim s) = false := by
      rcases hbool : strIsEmpty (rustTrim s) with _ | _
      · rfl
      · exact absurd ((strIsEmpty_iff _).mp hbool) htrim
    rcases store with _ | old
    · rw [gtd_first_spawn_ok env req pid hs]
      exact stepProtocol_fst_line env req _ true s hw hfl hbr hro hb
    · by_cases hflow : old.current_flow = some req.entry_full_id
      · rw [gtd_reuse env req old hflow]
        exact stepProtocol_fst_line env req old false s hw hfl hbr hro hb
      · rw [gtd_switch_spawn_ok env req old pid hflow hs]
        exact stepProtocol_fst_line env req _ true s hw hfl hbr hro hb
  · intro env req store status h
    rcases store with _ | old
    · rcases hs : env.spawnResult with e | pid
      · rw [gtd_first_spawn_err env req e hs] at h
        simp at h
      · rw [gtd_first_spawn_ok env req pid hs] at h
        exact stepProtocol_exited_sending env req _ true status h
    · by_cases hflow : old.current_flow = some req.entry_full_id
      · rw [gtd_reuse env req old hflow] at h
        exact stepProtocol_exited_sending env req old false status h
      · rcases hs : env.spawnResult with e | pid
        · rw [gtd_switch_spawn_err env req old e hflow hs] at h
          simp at h
        · rw [gtd_switch_spawn_ok env req old pid hflow hs] at h
          exact stepProtocol_exited_sending env req _ true status h

/-- C10 (witness): the child emits a full event line and is then observed
exited; the event is still returned. -/
theorem C10_witness :
    envExitAfterData.spawnResult = Except.ok 0
    ∧ envExitAfterData.writeResult = none
    ∧ envExitAfterData.flushResult = none
    ∧ envExitAfterData.exitBeforeRead = none
    ∧ envExitAfterData.readOutcome = ReadOutcome.line "null\n"
    ∧ envExitAfterData.exitAfterRead = some "ExitStatus(0)"
    ∧ rustTrim "null\n" ≠ ""
    ∧ (get_tracer_data envExitAfterData reqF1 none).1 =
        codecToResult (classifyLine envExitAfterData.parse "null\n") :=
  ⟨rfl, rfl, rfl, rfl, rfl, rfl, by decide,
   C10_data_wins_over_exit.1 envExitAfterData reqF1 none 0 "null\n" "ExitStatus(0)"
     rfl rfl rfl rfl rfl rfl (by decide)⟩

end Flowlens
